import Mathlib

/-!
A shallow embedding of the heyvito/wal storage core: the two-level segmented
log made of a `DataManager` over `DataSegment`s and an `Index` over
`IndexSegment`s, together with the append, lookup, count and vacuum
operations.  Each definition mirrors the corresponding Go function;
int64 values are modelled as `Int` (no arithmetic in the modelled runs
approaches the 64-bit range), the two `AtomicMap`s are modelled as an
object heap (association list) plus the list of keys currently stored in
the map, so that a "current segment" pointer can keep referencing an
object that vacuum already deleted from the map, exactly as the Go
pointer does.  Payloads are modelled by their byte length: no settled
claim inspects payload bytes through the manager, and `DataSegment.Read`
is modelled down to the copied-byte count it returns.  File-system
effects (create, truncate, msync, unlink) carry no further state and are
elided.  Loops whose Go termination relies on positive segment sizes are
written with an explicit fuel argument that dominates the Go trip count.
-/

namespace Wal

/-- One 41-byte index record, the fixed-width slot stored in an index
segment (`internal.IndexRecord`). -/
structure IndexRecord where
  recordId : Int
  dataSegmentStartId : Int
  dataSegmentEndId : Int
  dataSegmentOffset : Int
  size : Int
  purged : Bool
deriving Repr, DecidableEq

/-- The Go zero value `IndexRecord{}`, also what reading never-written
(zero-filled) slot bytes decodes to. -/
def IndexRecord.zero : IndexRecord := ⟨0, 0, 0, 0, 0, false⟩

/-- Association-list lookup, modelling `AtomicMap.Load` / heap access. -/
def alGet {α : Type} (l : List (Int × α)) (k : Int) : Option α :=
  (l.find? (fun p => p.1 == k)).map (fun p => p.2)

/-- Association-list upsert, modelling `AtomicMap.Store` / heap update. -/
def alSet {α : Type} (l : List (Int × α)) (k : Int) (v : α) : List (Int × α) :=
  if (l.find? (fun p => p.1 == k)).isSome then
    l.map (fun p => if p.1 == k then (k, v) else p)
  else l ++ [(k, v)]

/-- A data segment (`internal.DataSegment`): header fields only; the
payload byte area is tracked through `cursor`. -/
structure DataSegment where
  segmentId : Int
  size : Int
  cursor : Int
deriving Repr, DecidableEq

/-- `DataSegment.AvailableSize`. -/
def DataSegment.availableSize (s : DataSegment) : Int := s.size - s.cursor

/-- `DataSegment.Available`. -/
def DataSegment.available (s : DataSegment) : Bool :=
  decide (0 < s.availableSize)

/-- `DataSegment.Write`: copies `min (len data) (size - cursor)` bytes at
the pre-advance cursor and returns `(segment, offset, written)`. -/
def DataSegment.write (s : DataSegment) (dataLen : Int) : DataSegment × Int × Int :=
  let offset := s.cursor
  let written := min dataLen (s.size - offset)
  ({ s with cursor := offset + written }, offset, written)

/-- `DataSegment.Read`: if `offset ≥ Cursor` it returns 0 without
copying; otherwise it copies `s.Records[offset : offset+len(into)]` into
the buffer, which copies exactly `bufLen` bytes — with no clamp at the
cursor — and returns that count.  `none` models the Go slice-bounds
panic raised when the requested range leaves the records area. -/
def DataSegment.read (s : DataSegment) (bufLen offset : Int) : Option Int :=
  if s.cursor ≤ offset then some 0
  else if 0 ≤ offset && offset + bufLen ≤ s.size then some bufLen
  else none

/-- The data-segment manager (`internal.DataManager`).  `heap` holds
every segment object ever created this run, `inMap` the ids currently
stored in `Segments`, and `current` the id the `CurrentSegment` pointer
refers to — possibly an id vacuum already deleted from the map, since Go
never clears that pointer when unlinking. -/
structure DataManager where
  dataSegmentSize : Int
  heap : List (Int × DataSegment)
  inMap : List Int
  current : Option Int
  minSegment : Int
  maxSegment : Int
deriving Repr, DecidableEq

/-- Dereference of the `CurrentSegment` pointer; the default is never
reached in modelled runs (the pointer is nil only before the first
rotation, which `NewDataManager` always performs). -/
def curDataSeg (dm : DataManager) : DataSegment :=
  match dm.current with
  | some c => (alGet dm.heap c).getD ⟨-1, 0, 0⟩
  | none => ⟨-1, 0, 0⟩

/-- `DataManager.Rotate`: create the segment with id `CurrentSegment.SegmentID+1`
(or 0 when the pointer is nil) and install it as current. -/
def dmRotate (dm : DataManager) : DataManager :=
  match dm.current with
  | none =>
    let seg : DataSegment := ⟨0, dm.dataSegmentSize, 0⟩
    { dm with heap := alSet dm.heap 0 seg, inMap := dm.inMap ++ [0],
              current := some 0, minSegment := 0, maxSegment := 0 }
  | some cid =>
    let cs := (alGet dm.heap cid).getD ⟨-1, 0, 0⟩
    let nid := cs.segmentId + 1
    let seg : DataSegment := ⟨nid, dm.dataSegmentSize, 0⟩
    { dm with heap := alSet dm.heap nid seg, inMap := dm.inMap ++ [nid],
              current := some nid, maxSegment := nid }

/-- `NewDataManager` on an empty work directory: no segments found, so a
first rotation creates segment 0. -/
def dmNew (dataSegmentSize : Int) : DataManager :=
  dmRotate ⟨dataSegmentSize, [], [], none, -1, -1⟩

/-- The write loop of `DataManager.Write`: while bytes remain, rotate if
the current segment is full, then copy as many bytes as fit; the first
iteration records the pre-write offset into the index record.  The fuel
dominates the Go trip count whenever the segment size is positive. -/
def dmWriteLoop : Nat → DataManager → IndexRecord → Int → Int → DataManager × IndexRecord
  | 0, dm, r, _, _ => (dm, r)
  | Nat.succ fuel, dm, r, dataLen, written =>
    if written < dataLen then
      let dm1 := if !(curDataSeg dm).available then dmRotate dm else dm
      let res := (curDataSeg dm1).write (dataLen - written)
      let dm2 := { dm1 with heap := alSet dm1.heap res.1.segmentId res.1 }
      let r1 := if written == 0 then { r with dataSegmentOffset := res.2.1 } else r
      dmWriteLoop fuel dm2 r1 dataLen (written + res.2.2)
    else (dm, r)

/-- `DataManager.Write`: rotate if the current segment is full, record
the start segment id, run the write loop, record the end segment id. -/
def dmWrite (dm : DataManager) (dataLen : Int) (r : IndexRecord) : DataManager × IndexRecord :=
  let dm1 := if !(curDataSeg dm).available then dmRotate dm else dm
  let r1 := { r with dataSegmentStartId := (curDataSeg dm1).segmentId }
  let res := dmWriteLoop (dataLen.toNat + 1) dm1 r1 dataLen 0
  (res.1, { res.2 with dataSegmentEndId := (curDataSeg res.1).segmentId })

/-- `DataManager.VacuumDataSegments`: unlink and drop from the map every
segment whose id is not in use; if the map became empty, rotate and
store 0 into `MaxSegment`; recompute `MaxSegment` from the map; repoint
`CurrentSegment` only if it is nil (Go never clears it on unlink, so the
pointer may keep referencing an unlinked segment). -/
def vacuumDataSegments (dm : DataManager) (idsInUse : List Int) : DataManager :=
  let dm1 := { dm with inMap := dm.inMap.filter (fun k => idsInUse.contains k) }
  let dm2 := if dm1.inMap.isEmpty then
      let r := dmRotate dm1; { r with maxSegment := 0 }
    else dm1
  let maxS := dm2.inMap.foldl (fun a k => if a ≤ k then k else a) 0
  let dm3 := { dm2 with maxSegment := maxS }
  match dm3.current with
  | none => { dm3 with current := some maxS }
  | some _ => dm3

/-- An index segment (`internal.IndexSegment`).  `slots` is the packed
record area in physical write order: the Go byte offset of slot `j` is
`j * 41`, and `cursor` always equals `41 * slots.length` because only
`WriteRecord` advances it. -/
structure IndexSegment where
  segmentId : Int
  size : Int
  lowerRecord : Int
  upperRecord : Int
  recordsCount : Int
  cursor : Int
  purged : Bool
  slots : List IndexRecord
deriving Repr, DecidableEq

/-- A freshly created (`NewIndexSegment`) segment: zeroed header. -/
def newIndexSegment (sid size : Int) : IndexSegment :=
  ⟨sid, size, 0, 0, 0, 0, false, []⟩

/-- `IndexSegment.ContainsRecord`. -/
def IndexSegment.containsRecord (s : IndexSegment) (id : Int) : Bool :=
  if s.recordsCount == 0 then false
  else decide (s.lowerRecord ≤ id ∧ id ≤ s.upperRecord)

/-- The slot decode performed by `IndexSegment.LoadRecord`: the record at
byte offset `(id - LowerRecord) * 41`, i.e. physical slot index
`id - lowerRecord`; never-written slot bytes decode to the zero record. -/
def IndexSegment.slotFor (s : IndexSegment) (id : Int) : IndexRecord :=
  s.slots.getD (id - s.lowerRecord).toNat IndexRecord.zero

/-- `IndexSegment.LoadRecord` with its out-parameter semantics: when the
segment does not contain `id` the call returns false and leaves the
caller's record untouched. -/
def loadRecordInto (s : IndexSegment) (id : Int) (r : IndexRecord) : IndexRecord :=
  if s.containsRecord id then s.slotFor id else r

/-- `IndexSegment.FitsRecord`. -/
def IndexSegment.fitsRecord (s : IndexSegment) : Bool :=
  decide (s.cursor + 41 ≤ s.size)

/-- `IndexSegment.WriteRecord`: encode at the cursor (the next free
physical slot), set `LowerRecord` when the cursor was 0, set
`UpperRecord`, bump `RecordsCount`, advance the cursor by 41. -/
def IndexSegment.writeRecord (s : IndexSegment) (r : IndexRecord) : IndexSegment :=
  let cur := s.cursor
  { s with slots := s.slots ++ [r],
           lowerRecord := if cur == 0 then r.recordId else s.lowerRecord,
           upperRecord := r.recordId,
           recordsCount := s.recordsCount + 1,
           cursor := cur + 41 }

/-- The slot-marking loop of `PurgeFrom`: flags the first
`id - LowerRecord + 1` physical slots (counting from slot 0) purged. -/
def setPurgedFirst : Nat → List IndexRecord → List IndexRecord
  | 0, l => l
  | _ + 1, [] => []
  | n + 1, r :: l => { r with purged := true } :: setPurgedFirst n l

/-- `IndexSegment.PurgeFrom`: the special early branch marks the whole
segment purged when it cannot fit another record and `id` is its upper
record; otherwise mark the leading slots, recount live slots over
`[LowerRecord, UpperRecord]`, set the segment Purged flag when the count
reaches zero, and advance `LowerRecord` to the id of the first physical
slot still live (or store −1 when purged). -/
def IndexSegment.purgeFrom (s : IndexSegment) (id : Int) : IndexSegment :=
  if !s.fitsRecord && id == s.upperRecord then { s with purged := true }
  else
    let lr := s.lowerRecord
    let slots1 := setPurgedFirst (id - lr + 1).toNat s.slots
    let n := (s.upperRecord - lr + 1).toNat
    let live := ((List.range n).filter
      (fun j => !(slots1.getD j IndexRecord.zero).purged)).length
    let purged1 := s.purged || live == 0
    let lower1 :=
      if purged1 then (-1 : Int)
      else
        match (List.range n).find?
            (fun j => !(slots1.getD j IndexRecord.zero).purged) with
        | some j => lr + (j : Int)
        | none => lr
    { s with slots := slots1, recordsCount := (live : Int),
             purged := purged1, lowerRecord := lower1 }

/-- The index (`internal.Index`), with the same heap / map / pointer
modelling as `DataManager`. -/
structure IndexSt where
  indexSegmentSize : Int
  heap : List (Int × IndexSegment)
  inMap : List Int
  current : Option Int
  minSegment : Int
  maxSegment : Int
  maxRecord : Int
  dm : DataManager
deriving Repr, DecidableEq

/-- `Index.Segments.Load`: present only while stored in the map. -/
def idxMapGet (st : IndexSt) (k : Int) : Option IndexSegment :=
  if st.inMap.contains k then alGet st.heap k else none

/-- Dereference of the index `CurrentSegment` pointer (never nil at use
sites in modelled runs). -/
def curSeg (st : IndexSt) : IndexSegment :=
  match st.current with
  | some c => (alGet st.heap c).getD (newIndexSegment (-1) 0)
  | none => newIndexSegment (-1) 0

/-- Replace the object the index `CurrentSegment` pointer refers to
(a mutation through the pointer, visible through the map as well). -/
def idxUpdateCurrent (st : IndexSt) (f : IndexSegment → IndexSegment) : IndexSt :=
  match st.current with
  | none => st
  | some c => { st with heap := alSet st.heap c (f (curSeg st)) }

/-- `Index.Rotate`: with a nil current pointer create segment 0 and
store `MaxRecord = −1`; otherwise create `CurrentSegment.SegmentID + 1`. -/
def idxRotate (st : IndexSt) : IndexSt :=
  match st.current with
  | none =>
    let seg := newIndexSegment 0 st.indexSegmentSize
    { st with heap := alSet st.heap 0 seg, inMap := st.inMap ++ [0],
              current := some 0, minSegment := 0, maxSegment := 0,
              maxRecord := -1 }
  | some cid =>
    let cs := (alGet st.heap cid).getD (newIndexSegment (-1) 0)
    let nid := cs.segmentId + 1
    let seg := newIndexSegment nid st.indexSegmentSize
    { st with heap := alSet st.heap nid seg, inMap := st.inMap ++ [nid],
              current := some nid, maxSegment := nid }

/-- The user-facing configuration (`wal.Config`) fields the core uses. -/
structure Config where
  dataSegmentSize : Int
  indexSegmentSize : Int
deriving Repr, DecidableEq

/-- `NewIndex` on an empty work directory: start the data manager, find
no index files, rotate (which seeds `MaxRecord = −1`). -/
def idxNew (cfg : Config) : IndexSt :=
  idxRotate
    { indexSegmentSize := cfg.indexSegmentSize, heap := [], inMap := [],
      current := none, minSegment := -1, maxSegment := -1, maxRecord := 0,
      dm := dmNew cfg.dataSegmentSize }

/-- The externally visible effects of `Index.Append`, in program order. -/
inductive AppendEvent
  | dataWrite
  | maxRecordStore
  | indexSlotWrite
deriving Repr, DecidableEq

/-- `Index.Append` as its sequence of externally visible effects, each
paired with the state right after it: rotate if the current index
segment is full, assign `RecordID = MaxRecord + 1`, delegate to
`DataManager.Write`, store the new `MaxRecord`, then write the index
slot — in exactly that order in the Go source. -/
def idxAppendSteps (st : IndexSt) (len : Int) : List (AppendEvent × IndexSt) :=
  let st1 := if !(curSeg st).fitsRecord then idxRotate st else st
  let recID := st1.maxRecord + 1
  let r0 : IndexRecord :=
    { IndexRecord.zero with recordId := recID, size := len, purged := false }
  let res := dmWrite st1.dm len r0
  let st2 := { st1 with dm := res.1 }
  let st3 := { st2 with maxRecord := recID }
  let st4 := idxUpdateCurrent st3 (fun s => s.writeRecord res.2)
  [(AppendEvent.dataWrite, st2), (AppendEvent.maxRecordStore, st3),
   (AppendEvent.indexSlotWrite, st4)]

/-- `Index.Append`: the final state after all effects, together with the
record id it assigned. -/
def idxAppend (st : IndexSt) (len : Int) : IndexSt × Int :=
  let st1 := if !(curSeg st).fitsRecord then idxRotate st else st
  let recID := st1.maxRecord + 1
  let r0 : IndexRecord :=
    { IndexRecord.zero with recordId := recID, size := len, purged := false }
  let res := dmWrite st1.dm len r0
  let st2 := { st1 with dm := res.1 }
  let st3 := { st2 with maxRecord := recID }
  (idxUpdateCurrent st3 (fun s => s.writeRecord res.2), recID)

/-- The last `idxAppendSteps` state is the `idxAppend` result. -/
theorem idxAppendSteps_final (st : IndexSt) (len : Int) :
    ((idxAppendSteps st len).getLastD (AppendEvent.indexSlotWrite, st)).2
      = (idxAppend st len).1 := rfl

/-- `Index.SegmentForID`: scan the stored segments for the one whose
`ContainsRecord` holds (scan order fixed to ascending segment id; all
settled runs have at most one containing segment). -/
def segmentForID (st : IndexSt) (id : Int) : Option IndexSegment :=
  (st.inMap.filterMap (fun k => idxMapGet st k)).find?
    (fun s => s.containsRecord id)

/-- `Index.LookupMeta`: `NotFound` (`none`) when no stored segment
contains the id, otherwise the decoded slot. -/
def lookupMeta (st : IndexSt) (id : Int) : Option IndexRecord :=
  (segmentForID st id).map (fun s => s.slotFor id)

/-- The outcome of `wal.ReadObject` up to the data read: `notFound` for
the lookup failure or the purged-flag rejection, `found r` when it
proceeds to stream the payload described by `r`. -/
inductive ReadResult
  | notFound
  | found (r : IndexRecord)
deriving Repr, DecidableEq

/-- `wal.ReadObject`: lookup the meta record, then reject it when its
Purged flag is set. -/
def readObject (st : IndexSt) (id : Int) : ReadResult :=
  match lookupMeta st id with
  | none => ReadResult.notFound
  | some r => if r.purged then ReadResult.notFound else ReadResult.found r

/-- The successor loop of `Index.CountObjects`: follow `SegmentID + 1`
while stored, summing `RecordsCount`.  Fuel `inMap.length` dominates the
chain length. -/
def countSucc (st : IndexSt) : Nat → Int → Int
  | 0, _ => 0
  | Nat.succ fuel, sid =>
    match idxMapGet st sid with
    | none => 0
    | some s => s.recordsCount + countSucc st fuel (sid + 1)

/-- `Index.CountObjects`: 0 when no stored segment contains `id`,
otherwise `UpperRecord − id` plus every successor segment's
`RecordsCount`, plus 1 when inclusive. -/
def countObjects (st : IndexSt) (id : Int) (inclusive : Bool) : Int :=
  match segmentForID st id with
  | none => 0
  | some s =>
    let total := s.upperRecord - id + countSucc st st.inMap.length (s.segmentId + 1)
    if inclusive then total + 1 else total

/-- The integer interval `[a, b]` as a list, for the
`[DataSegmentStartID, DataSegmentEndID]` union in `VacuumObjects`. -/
def intRange (a b : Int) : List Int :=
  (List.range (b - a + 1).toNat).map (fun k => a + (k : Int))

/-- The inner loop of the in-use scan of `Index.VacuumObjects` for one
segment: iterate ids `LowerRecord .. UpperRecord`, `LoadRecord` into the
loop-carried record (left untouched when not contained), skip purged,
and union the data-segment interval. -/
def segInUseAux (s : IndexSegment) : Nat → Int → IndexRecord → List Int
  | 0, _, _ => []
  | Nat.succ fuel, i, r =>
    if i ≤ s.upperRecord then
      let r1 := loadRecordInto s i r
      let rest := segInUseAux s fuel (i + 1) r1
      if r1.purged then rest
      else intRange r1.dataSegmentStartId r1.dataSegmentEndId ++ rest
    else []

/-- The in-use data-segment ids contributed by one index segment. -/
def segInUse (s : IndexSegment) : List Int :=
  segInUseAux s ((s.upperRecord - s.lowerRecord + 1).toNat + 1)
    s.lowerRecord IndexRecord.zero

/-- The full in-use scan of `Index.VacuumObjects` over all stored,
non-purged index segments. -/
def computeInUse (st : IndexSt) : List Int :=
  (st.inMap.filterMap (fun k => idxMapGet st k)).foldr
    (fun s acc => if s.purged then acc else segInUse s ++ acc) []

/-- The descending walk of `Index.VacuumObjects` step 4: mark every
stored segment with id strictly below the starting one purged and
collect it for removal, stopping at the first gap. -/
def markPrevPurged : IndexSt → Nat → Int → IndexSt × List Int
  | st, 0, _ => (st, [])
  | st, Nat.succ fuel, sid =>
    match idxMapGet st sid with
    | none => (st, [])
    | some s =>
      let st1 := { st with heap := alSet st.heap sid { s with purged := true } }
      let res := markPrevPurged st1 fuel (sid - 1)
      (res.1, sid :: res.2)

/-- One removal step of `Index.VacuumObjects` step 7: unlink the
segment, drop it from the map, and clear the current pointer when it
referred to it. -/
def removeSeg (st : IndexSt) (v : Int) : IndexSt :=
  if st.inMap.contains v then
    let st1 := { st with inMap := st.inMap.filter (fun k => k != v) }
    if st1.current == some v then { st1 with current := none } else st1
  else st

/-- `Index.VacuumObjects`: normalize the id, purge from the containing
segment, mark all earlier segments purged, recompute the in-use
data-segment set, vacuum the data layer, unlink the collected index
segments, rotate when none remain (with the extra `MaxSegment := 0`
store), recompute Min/Max, repoint the current segment if cleared, and
finally store into `MaxRecord`: −1 when the current segment has zero
records, otherwise the current segment's `RecordsCount`. -/
def idxVacuum (st : IndexSt) (id0 : Int) (inclusive : Bool) : IndexSt :=
  let id := if !inclusive then id0 - 1 else id0
  if id < 0 then st
  else
    match segmentForID st id with
    | none => st
    | some s0 =>
      let sid := s0.segmentId
      let s1 := s0.purgeFrom id
      let st1 := { st with heap := alSet st.heap sid s1 }
      let rem1 := if s1.purged then [sid] else []
      let walk := markPrevPurged st1 st1.inMap.length (sid - 1)
      let st2 := walk.1
      let rem := rem1 ++ walk.2
      let inUse := computeInUse st2
      let st3 := { st2 with dm := vacuumDataSegments st2.dm inUse }
      let st4 := rem.foldl removeSeg st3
      let st5 := if st4.inMap.isEmpty then
          let r := idxRotate st4; { r with maxSegment := 0 }
        else st4
      let minS := st5.inMap.foldl (fun a k => if k ≤ a then k else a)
        9223372036854775807
      let maxS := st5.inMap.foldl (fun a k => if a ≤ k then k else a) 0
      let st6 := { st5 with minSegment := minS, maxSegment := maxS }
      let st7 := match st6.current with
        | none => { st6 with current := some maxS }
        | some _ => st6
      let c := curSeg st7
      { st7 with maxRecord := if c.recordsCount == 0 then -1 else c.recordsCount }

/-- `wal.CurrentRecordID`: `max(MaxRecord, 0)`. -/
def currentRecordID (st : IndexSt) : Int := max st.maxRecord 0

/-- One host-surface operation: `WriteObject` (by payload length) or
`VacuumRecords`. -/
inductive WalOp
  | write (len : Int)
  | vacuum (id : Int) (inclusive : Bool)
deriving Repr, DecidableEq

/-- Run a list of operations from a state, collecting the record id
assigned by each append. -/
def walRunFrom : IndexSt → List WalOp → IndexSt × List Int
  | st, [] => (st, [])
  | st, WalOp.write len :: ops =>
    let res := idxAppend st len
    let rest := walRunFrom res.1 ops
    (rest.1, res.2 :: rest.2)
  | st, WalOp.vacuum id inc :: ops => walRunFrom (idxVacuum st id inc) ops

/-- Run a list of operations on a freshly created log. -/
def walRun (cfg : Config) (ops : List WalOp) : IndexSt :=
  (walRunFrom (idxNew cfg) ops).1

/-- The record ids assigned by the appends of a run on a fresh log. -/
def walRunIds (cfg : Config) (ops : List WalOp) : List Int :=
  (walRunFrom (idxNew cfg) ops).2


theorem walRunFrom_fst_append (st : IndexSt) (xs ys : List WalOp) :
    (walRunFrom st (xs ++ ys)).1 = (walRunFrom (walRunFrom st xs).1 ys).1 := by
  induction xs generalizing st with
  | nil => rfl
  | cons op xs ih =>
    cases op with
    | write len => simp only [List.cons_append, walRunFrom]; exact ih _
    | vacuum id inc => simp only [List.cons_append, walRunFrom]; exact ih _

theorem idxUpdateCurrent_maxRecord (st : IndexSt) (f : IndexSegment → IndexSegment) :
    (idxUpdateCurrent st f).maxRecord = st.maxRecord := by
  rcases h : st.current with _ | c <;> simp [idxUpdateCurrent, h]

theorem idxUpdateCurrent_current (st : IndexSt) (f : IndexSegment → IndexSegment) :
    (idxUpdateCurrent st f).current = st.current := by
  rcases h : st.current with _ | c <;> simp [idxUpdateCurrent, h]

theorem idxRotate_maxRecord_some (st : IndexSt) (c : Int) (hc : st.current = some c) :
    (idxRotate st).maxRecord = st.maxRecord := by
  simp [idxRotate, hc]

theorem idxRotate_current_some (st : IndexSt) (c : Int) (hc : st.current = some c) :
    (idxRotate st).current.isSome := by
  simp [idxRotate, hc]

theorem idxAppend_snd (st : IndexSt) (len : Int) :
    (idxAppend st len).2 = (if !(curSeg st).fitsRecord then idxRotate st else st).maxRecord + 1 := rfl

theorem idxAppend_fst_maxRecord (st : IndexSt) (len : Int) :
    (idxAppend st len).1.maxRecord
      = (if !(curSeg st).fitsRecord then idxRotate st else st).maxRecord + 1 := by
  unfold idxAppend
  rw [idxUpdateCurrent_maxRecord]

theorem idxAppend_fst_current (st : IndexSt) (len : Int) :
    (idxAppend st len).1.current
      = (if !(curSeg st).fitsRecord then idxRotate st else st).current := by
  unfold idxAppend
  rw [idxUpdateCurrent_current]

theorem idxAppend_spec (st : IndexSt) (len : Int) (h : st.current.isSome) :
    (idxAppend st len).2 = st.maxRecord + 1 ∧
    (idxAppend st len).1.maxRecord = st.maxRecord + 1 ∧
    (idxAppend st len).1.current.isSome := by
  obtain ⟨c, hc⟩ := Option.isSome_iff_exists.mp h
  have hmr : (if !(curSeg st).fitsRecord then idxRotate st else st).maxRecord = st.maxRecord := by
    by_cases hf : (curSeg st).fitsRecord
    · simp [hf]
    · simp only [Bool.not_eq_true] at hf
      simp [hf, idxRotate_maxRecord_some st c hc]
  have hcur : (if !(curSeg st).fitsRecord then idxRotate st else st).current.isSome := by
    by_cases hf : (curSeg st).fitsRecord
    · simp [hf, hc]
    · simp only [Bool.not_eq_true] at hf
      simp only [hf, Bool.not_false, if_pos]
      exact idxRotate_current_some st c hc
  refine ⟨?_, ?_, ?_⟩
  · rw [idxAppend_snd, hmr]
  · rw [idxAppend_fst_maxRecord, hmr]
  · rw [idxAppend_fst_current]
    exact hcur

theorem walRunFrom_append_ids (lens : List Int) : ∀ st : IndexSt, st.current.isSome →
    (walRunFrom st (lens.map WalOp.write)).2
      = (List.range lens.length).map (fun k => st.maxRecord + 1 + Int.ofNat k) := by
  induction lens with
  | nil => intro st _; rfl
  | cons l ls ih =>
    intro st h
    obtain ⟨h1, h2, h3⟩ := idxAppend_spec st l h
    show ((idxAppend st l).2 :: (walRunFrom (idxAppend st l).1 (ls.map WalOp.write)).2)
        = (List.range (l :: ls).length).map (fun k => st.maxRecord + 1 + Int.ofNat k)
    rw [ih (idxAppend st l).1 h3, h1, h2, List.length_cons, List.range_succ_eq_map]
    simp only [List.map_cons, List.map_map, List.cons.injEq]
    refine ⟨by simp, ?_⟩
    apply List.map_congr_left
    intro a _
    simp only [Function.comp_apply, Int.ofNat_eq_coe, Nat.succ_eq_add_one]
    push_cast
    ring


/-- The location record the data layer assigns to record `i` in the
C9 run (1000 appends of 8 bytes, `DataSegmentSize = 4096`): records
0–511 fill data segment 0, the rest land in data segment 1. -/
def c9rec (i : Int) : IndexRecord :=
  if i < 512 then ⟨i, 0, 0, 8*i, 8, false⟩ else ⟨i, 1, 1, 8*(i - 512), 8, false⟩

/-- The slots of full index segment `k` in the C9 run (capacity 99
records per 4096-byte index segment). -/
def c9slots (k : Nat) : List IndexRecord :=
  (List.range 99).map (fun j => c9rec (99*(k:Int) + (j:Int)))

/-- Full index segment `k` of the C9 run. -/
def c9seg (k : Nat) : IndexSegment :=
  ⟨Int.ofNat k, 4096, 99*(k:Int), 99*(k:Int) + 98, 99, 4059, false, c9slots k⟩

/-- The data manager after `n` appends of the C9 run. -/
def c9dm (n : Nat) : DataManager :=
  if n ≤ 512 then ⟨4096, [(0, ⟨0, 4096, 8*(n:Int)⟩)], [0], some 0, 0, 0⟩
  else ⟨4096, [(0, ⟨0, 4096, 4096⟩), (1, ⟨1, 4096, 8*((n:Int) - 512)⟩)], [0, 1], some 1, 0, 1⟩

/-- Index segment `k` after `n` appends of the C9 run: full below the
last segment, partial at the last. -/
def c9segN (n k : Nat) : IndexSegment :=
  if k < (n-1)/99 then c9seg k
  else ⟨Int.ofNat k, 4096, 99*(k:Int), (n:Int) - 1, (n:Int) - 99*(k:Int),
        41*((n:Int) - 99*(k:Int)), false, (c9slots k).take (n - 99*k)⟩

/-- The whole index state after `n` appends (`1 ≤ n ≤ 1000`) of the C9
run, written in closed form; the chunk theorems below check it against
the operational model every 25 appends. -/
def c9stateN (n : Nat) : IndexSt :=
  ⟨4096, (List.range ((n-1)/99 + 1)).map (fun k => (Int.ofNat k, c9segN n k)),
   (List.range ((n-1)/99 + 1)).map (fun k => Int.ofNat k),
   some (Int.ofNat ((n-1)/99)), 0, Int.ofNat ((n-1)/99), (n:Int) - 1, c9dm n⟩

set_option maxRecDepth 100000 in
theorem c9h0 : (walRunFrom (idxNew ⟨4096, 4096⟩) (List.replicate 25 (WalOp.write 8))).1 = c9stateN 25 := by
  decide

set_option maxRecDepth 100000 in
theorem c9h25 : (walRunFrom (c9stateN 25) (List.replicate 25 (WalOp.write 8))).1 = c9stateN 50 := by
  decide

set_option maxRecDepth 100000 in
theorem c9h50 : (walRunFrom (c9stateN 50) (List.replicate 25 (WalOp.write 8))).1 = c9stateN 75 := by
  decide

set_option maxRecDepth 100000 in
theorem c9h75 : (walRunFrom (c9stateN 75) (List.replicate 25 (WalOp.write 8))).1 = c9stateN 100 := by
  decide

set_option maxRecDepth 100000 in
theorem c9h100 : (walRunFrom (c9stateN 100) (List.replicate 25 (WalOp.write 8))).1 = c9stateN 125 := by
  decide

set_option maxRecDepth 100000 in
theorem c9h125 : (walRunFrom (c9stateN 125) (List.replicate 25 (WalOp.write 8))).1 = c9stateN 150 := by
  decide

set_option maxRecDepth 100000 in
theorem c9h150 : (walRunFrom (c9stateN 150) (List.replicate 25 (WalOp.write 8))).1 = c9stateN 175 := by
  decide

set_option maxRecDepth 100000 in
theorem c9h175 : (walRunFrom (c9stateN 175) (List.replicate 25 (WalOp.write 8))).1 = c9stateN 200 := by
  decide

set_option maxRecDepth 100000 in
theorem c9h200 : (walRunFrom (c9stateN 200) (List.replicate 25 (WalOp.write 8))).1 = c9stateN 225 := by
  decide

set_option maxRecDepth 100000 in
theorem c9h225 : (walRunFrom (c9stateN 225) (List.replicate 25 (WalOp.write 8))).1 = c9stateN 250 := by
  decide

set_option maxRecDepth 100000 in
theorem c9h250 : (walRunFrom (c9stateN 250) (List.replicate 25 (WalOp.write 8))).1 = c9stateN 275 := by
  decide

set_option maxRecDepth 100000 in
theorem c9h275 : (walRunFrom (c9stateN 275) (List.replicate 25 (WalOp.write 8))).1 = c9stateN 300 := by
  decide

set_option maxRecDepth 100000 in
theorem c9h300 : (walRunFrom (c9stateN 300) (List.replicate 25 (WalOp.write 8))).1 = c9stateN 325 := by
  decide

set_option maxRecDepth 100000 in
theorem c9h325 : (walRunFrom (c9stateN 325) (List.replicate 25 (WalOp.write 8))).1 = c9stateN 350 := by
  decide

set_option maxRecDepth 100000 in
theorem c9h350 : (walRunFrom (c9stateN 350) (List.replicate 25 (WalOp.write 8))).1 = c9stateN 375 := by
  decide

set_option maxRecDepth 100000 in
theorem c9h375 : (walRunFrom (c9stateN 375) (List.replicate 25 (WalOp.write 8))).1 = c9stateN 400 := by
  decide

set_option maxRecDepth 100000 in
theorem c9h400 : (walRunFrom (c9stateN 400) (List.replicate 25 (WalOp.write 8))).1 = c9stateN 425 := by
  decide

set_option maxRecDepth 100000 in
theorem c9h425 : (walRunFrom (c9stateN 425) (List.replicate 25 (WalOp.write 8))).1 = c9stateN 450 := by
  decide

set_option maxRecDepth 100000 in
theorem c9h450 : (walRunFrom (c9stateN 450) (List.replicate 25 (WalOp.write 8))).1 = c9stateN 475 := by
  decide

set_option maxRecDepth 100000 in
theorem c9h475 : (walRunFrom (c9stateN 475) (List.replicate 25 (WalOp.write 8))).1 = c9stateN 500 := by
  decide

set_option maxRecDepth 100000 in
theorem c9h500 : (walRunFrom (c9stateN 500) (List.replicate 25 (WalOp.write 8))).1 = c9stateN 525 := by
  decide

set_option maxRecDepth 100000 in
theorem c9h525 : (walRunFrom (c9stateN 525) (List.replicate 25 (WalOp.write 8))).1 = c9stateN 550 := by
  decide

set_option maxRecDepth 100000 in
theorem c9h550 : (walRunFrom (c9stateN 550) (List.replicate 25 (WalOp.write 8))).1 = c9stateN 575 := by
  decide

set_option maxRecDepth 100000 in
theorem c9h575 : (walRunFrom (c9stateN 575) (List.replicate 25 (WalOp.write 8))).1 = c9stateN 600 := by
  decide

set_option maxRecDepth 100000 in
theorem c9h600 : (walRunFrom (c9stateN 600) (List.replicate 25 (WalOp.write 8))).1 = c9stateN 625 := by
  decide

set_option maxRecDepth 100000 in
theorem c9h625 : (walRunFrom (c9stateN 625) (List.replicate 25 (WalOp.write 8))).1 = c9stateN 650 := by
  decide

set_option maxRecDepth 100000 in
theorem c9h650 : (walRunFrom (c9stateN 650) (List.replicate 25 (WalOp.write 8))).1 = c9stateN 675 := by
  decide

set_option maxRecDepth 100000 in
theorem c9h675 : (walRunFrom (c9stateN 675) (List.replicate 25 (WalOp.write 8))).1 = c9stateN 700 := by
  decide

set_option maxRecDepth 100000 in
theorem c9h700 : (walRunFrom (c9stateN 700) (List.replicate 25 (WalOp.write 8))).1 = c9stateN 725 := by
  decide

set_option maxRecDepth 100000 in
theorem c9h725 : (walRunFrom (c9stateN 725) (List.replicate 25 (WalOp.write 8))).1 = c9stateN 750 := by
  decide

set_option maxRecDepth 100000 in
theorem c9h750 : (walRunFrom (c9stateN 750) (List.replicate 25 (WalOp.write 8))).1 = c9stateN 775 := by
  decide

set_option maxRecDepth 100000 in
theorem c9h775 : (walRunFrom (c9stateN 775) (List.replicate 25 (WalOp.write 8))).1 = c9stateN 800 := by
  decide

set_option maxRecDepth 100000 in
theorem c9h800 : (walRunFrom (c9stateN 800) (List.replicate 25 (WalOp.write 8))).1 = c9stateN 825 := by
  decide

set_option maxRecDepth 100000 in
theorem c9h825 : (walRunFrom (c9stateN 825) (List.replicate 25 (WalOp.write 8))).1 = c9stateN 850 := by
  decide

set_option maxRecDepth 100000 in
theorem c9h850 : (walRunFrom (c9stateN 850) (List.replicate 25 (WalOp.write 8))).1 = c9stateN 875 := by
  decide

set_option maxRecDepth 100000 in
theorem c9h875 : (walRunFrom (c9stateN 875) (List.replicate 25 (WalOp.write 8))).1 = c9stateN 900 := by
  decide

set_option maxRecDepth 100000 in
theorem c9h900 : (walRunFrom (c9stateN 900) (List.replicate 25 (WalOp.write 8))).1 = c9stateN 925 := by
  decide

set_option maxRecDepth 100000 in
theorem c9h925 : (walRunFrom (c9stateN 925) (List.replicate 25 (WalOp.write 8))).1 = c9stateN 950 := by
  decide

set_option maxRecDepth 100000 in
theorem c9h950 : (walRunFrom (c9stateN 950) (List.replicate 25 (WalOp.write 8))).1 = c9stateN 975 := by
  decide

set_option maxRecDepth 100000 in
theorem c9h975 : (walRunFrom (c9stateN 975) (List.replicate 25 (WalOp.write 8))).1 = c9stateN 1000 := by
  decide

/-- Glue for C9: the state after the whole run is the closed form. -/
theorem c9run : walRun ⟨4096, 4096⟩ (List.replicate 1000 (WalOp.write 8)) = c9stateN 1000 := by
  show (walRunFrom (idxNew ⟨4096, 4096⟩) (List.replicate 1000 (WalOp.write 8))).1 = c9stateN 1000
  rw [show (1000:Nat) = 25 + 975 from rfl, List.replicate_add, walRunFrom_fst_append, c9h0,
        show (975:Nat) = 25 + 950 from rfl, List.replicate_add, walRunFrom_fst_append, c9h25,
        show (950:Nat) = 25 + 925 from rfl, List.replicate_add, walRunFrom_fst_append, c9h50,
        show (925:Nat) = 25 + 900 from rfl, List.replicate_add, walRunFrom_fst_append, c9h75,
        show (900:Nat) = 25 + 875 from rfl, List.replicate_add, walRunFrom_fst_append, c9h100,
        show (875:Nat) = 25 + 850 from rfl, List.replicate_add, walRunFrom_fst_append, c9h125,
        show (850:Nat) = 25 + 825 from rfl, List.replicate_add, walRunFrom_fst_append, c9h150,
        show (825:Nat) = 25 + 800 from rfl, List.replicate_add, walRunFrom_fst_append, c9h175,
        show (800:Nat) = 25 + 775 from rfl, List.replicate_add, walRunFrom_fst_append, c9h200,
        show (775:Nat) = 25 + 750 from rfl, List.replicate_add, walRunFrom_fst_append, c9h225,
        show (750:Nat) = 25 + 725 from rfl, List.replicate_add, walRunFrom_fst_append, c9h250,
        show (725:Nat) = 25 + 700 from rfl, List.replicate_add, walRunFrom_fst_append, c9h275,
        show (700:Nat) = 25 + 675 from rfl, List.replicate_add, walRunFrom_fst_append, c9h300,
        show (675:Nat) = 25 + 650 from rfl, List.replicate_add, walRunFrom_fst_append, c9h325,
        show (650:Nat) = 25 + 625 from rfl, List.replicate_add, walRunFrom_fst_append, c9h350,
        show (625:Nat) = 25 + 600 from rfl, List.replicate_add, walRunFrom_fst_append, c9h375,
        show (600:Nat) = 25 + 575 from rfl, List.replicate_add, walRunFrom_fst_append, c9h400,
        show (575:Nat) = 25 + 550 from rfl, List.replicate_add, walRunFrom_fst_append, c9h425,
        show (550:Nat) = 25 + 525 from rfl, List.replicate_add, walRunFrom_fst_append, c9h450,
        show (525:Nat) = 25 + 500 from rfl, List.replicate_add, walRunFrom_fst_append, c9h475,
        show (500:Nat) = 25 + 475 from rfl, List.replicate_add, walRunFrom_fst_append, c9h500,
        show (475:Nat) = 25 + 450 from rfl, List.replicate_add, walRunFrom_fst_append, c9h525,
        show (450:Nat) = 25 + 425 from rfl, List.replicate_add, walRunFrom_fst_append, c9h550,
        show (425:Nat) = 25 + 400 from rfl, List.replicate_add, walRunFrom_fst_append, c9h575,
        show (400:Nat) = 25 + 375 from rfl, List.replicate_add, walRunFrom_fst_append, c9h600,
        show (375:Nat) = 25 + 350 from rfl, List.replicate_add, walRunFrom_fst_append, c9h625,
        show (350:Nat) = 25 + 325 from rfl, List.replicate_add, walRunFrom_fst_append, c9h650,
        show (325:Nat) = 25 + 300 from rfl, List.replicate_add, walRunFrom_fst_append, c9h675,
        show (300:Nat) = 25 + 275 from rfl, List.replicate_add, walRunFrom_fst_append, c9h700,
        show (275:Nat) = 25 + 250 from rfl, List.replicate_add, walRunFrom_fst_append, c9h725,
        show (250:Nat) = 25 + 225 from rfl, List.replicate_add, walRunFrom_fst_append, c9h750,
        show (225:Nat) = 25 + 200 from rfl, List.replicate_add, walRunFrom_fst_append, c9h775,
        show (200:Nat) = 25 + 175 from rfl, List.replicate_add, walRunFrom_fst_append, c9h800,
        show (175:Nat) = 25 + 150 from rfl, List.replicate_add, walRunFrom_fst_append, c9h825,
        show (150:Nat) = 25 + 125 from rfl, List.replicate_add, walRunFrom_fst_append, c9h850,
        show (125:Nat) = 25 + 100 from rfl, List.replicate_add, walRunFrom_fst_append, c9h875,
        show (100:Nat) = 25 + 75 from rfl, List.replicate_add, walRunFrom_fst_append, c9h900,
        show (75:Nat) = 25 + 50 from rfl, List.replicate_add, walRunFrom_fst_append, c9h925,
        show (50:Nat) = 25 + 25 from rfl, List.replicate_add, walRunFrom_fst_append, c9h950,
        c9h975]

set_option maxRecDepth 400000 in
/-- Claim C1: the spec says a successful `VacuumObjects` leaves
`MaxRecord` (hence `CurrentRecordID`) at the highest RecordID ever
assigned whenever the current segment still holds records.  The code
instead stores the current segment's `RecordsCount` into `MaxRecord`
(part_007, end of `VacuumObjects`): after 10 appends (ids 0–9, two
records per index segment) and `VacuumObjects(2, true)`,
`CurrentRecordID` is 2 — the record count of the current segment — not
9, contradicting the spec and the repository's own
`TestWALOperationPartialVacuum` expectation scaled down. -/
theorem c1_vacuum_clobbers_maxRecord :
    walRunIds ⟨64, 92⟩ (List.replicate 10 (WalOp.write 8) ++ [WalOp.vacuum 2 true])
      = [0, 1, 2, 3, 4, 5, 6, 7, 8, 9]
    ∧ currentRecordID
        (walRun ⟨64, 92⟩ (List.replicate 10 (WalOp.write 8) ++ [WalOp.vacuum 2 true])) = 2 := by
  exact ⟨by decide, by decide⟩

/-- Claim C2 (amended): in `Index.Append` the externally visible
effects happen in the order data write, `MaxRecord` store, index-slot
write — so `MaxRecord` is advanced after the data write but before the
index-slot write, and in the intermediate observable state the new
`MaxRecord` already counts a record whose index slot is not yet
written (the current segment's slots are unchanged from the post-data-
write state). -/
theorem c2_append_event_order (st : IndexSt) (len : Int) :
    (idxAppendSteps st len).map Prod.fst
      = [AppendEvent.dataWrite, AppendEvent.maxRecordStore, AppendEvent.indexSlotWrite]
    ∧ ((idxAppendSteps st len).getD 1 (AppendEvent.dataWrite, st)).2.maxRecord
        = ((idxAppendSteps st len).getD 0 (AppendEvent.dataWrite, st)).2.maxRecord + 1
    ∧ (curSeg ((idxAppendSteps st len).getD 1 (AppendEvent.dataWrite, st)).2).slots
        = (curSeg ((idxAppendSteps st len).getD 0 (AppendEvent.dataWrite, st)).2).slots :=
  ⟨rfl, rfl, rfl⟩

set_option maxRecDepth 400000 in
/-- Claim C2, counterexample to the claim as stated: on a fresh log,
right after the `MaxRecord` store of the first `Append` (the state
paired with the `maxRecordStore` event), an observer reads
`MaxRecord = 0` — at the id of the in-flight record — while the current
index segment holds no slot at all, and a lookup of record 0 at that
point fails; so `MaxRecord` is not advanced only after the index-slot
write has completed. -/
theorem c2_maxRecord_visible_before_slot_write :
    ((idxAppendSteps (idxNew ⟨64, 1024⟩) 8).map Prod.fst
      = [AppendEvent.dataWrite, AppendEvent.maxRecordStore, AppendEvent.indexSlotWrite])
    ∧ ((idxAppendSteps (idxNew ⟨64, 1024⟩) 8).getD 1
        (AppendEvent.dataWrite, idxNew ⟨64, 1024⟩)).2.maxRecord = 0
    ∧ (curSeg ((idxAppendSteps (idxNew ⟨64, 1024⟩) 8).getD 1
        (AppendEvent.dataWrite, idxNew ⟨64, 1024⟩)).2).slots = []
    ∧ readObject ((idxAppendSteps (idxNew ⟨64, 1024⟩) 8).getD 1
        (AppendEvent.dataWrite, idxNew ⟨64, 1024⟩)).2 0 = ReadResult.notFound := by
  exact ⟨by decide, by decide, by decide, by decide⟩

set_option maxRecDepth 400000 in
/-- Claim C3: the spec says a record not covered by any vacuum prefix
is still readable after a partial vacuum of its index segment.  In the
code, `PurgeFrom` advances `LowerRecord` but `LoadRecord` keeps
addressing slot `(id − LowerRecord) × 41`, so after appends of 298, 25
and 25 bytes and `VacuumObjects(0, true)`, reading the live record 1
decodes record 0's purged slot and `ReadObject(1)` fails with NotFound
— even though record 1 was assigned and its own slot (physical slot 1)
is not flagged purged. -/
theorem c3_read_live_record_after_partial_vacuum :
    walRunIds ⟨128, 1024⟩
      [WalOp.write 298, WalOp.write 25, WalOp.write 25, WalOp.vacuum 0 true] = [0, 1, 2]
    ∧ readObject
        (walRun ⟨128, 1024⟩
          [WalOp.write 298, WalOp.write 25, WalOp.write 25, WalOp.vacuum 0 true]) 1
        = ReadResult.notFound
    ∧ (idxMapGet
        (walRun ⟨128, 1024⟩
          [WalOp.write 298, WalOp.write 25, WalOp.write 25, WalOp.vacuum 0 true]) 0).map
        (fun s => s.slots.map (fun r => r.purged)) = some [true, false, false] := by
  exact ⟨by decide, by decide, by decide⟩

set_option maxRecDepth 400000 in
/-- Claim C4: the spec says a RecordID is never assigned twice across
appends and vacuums.  Because `VacuumObjects` stores the current
segment's `RecordsCount` into `MaxRecord`, an append after a partial
vacuum reuses an already-assigned id: with two records per index
segment, six appends (ids 0–5), `VacuumObjects(0, true)` and one more
append assign the id sequence [0,1,2,3,4,5,3] — id 3 is assigned to two
different successful appends. -/
theorem c4_record_id_reused_after_vacuum :
    walRunIds ⟨64, 92⟩
      (List.replicate 6 (WalOp.write 8) ++ [WalOp.vacuum 0 true, WalOp.write 8])
      = [0, 1, 2, 3, 4, 5, 3] := by
  decide

/-- Claim C5, counterexample to the claim as stated: `DataSegment.Read`
does not clamp the copy at the segment cursor.  On a segment of size 64
whose cursor is 32 (after one 32-byte write), a read of a 64-byte
buffer at offset 0 copies and returns 64 bytes, not
`min(len(buf), Cursor − offset) = 32`, so bytes at and beyond the
cursor are copied. -/
theorem c5_read_not_clamped_at_cursor :
    DataSegment.read ((DataSegment.write ⟨0, 64, 0⟩ 32).1) 64 0 = some 64
    ∧ min (64:Int) (((DataSegment.write ⟨0, 64, 0⟩ 32).1).cursor - 0) = 32
    ∧ (64:Int) ≠ 32 := by
  exact ⟨by decide, by decide, by decide⟩

/-- Claim C5 (amended): `Read(buf, offset)` returns 0 and copies
nothing when `offset ≥ Cursor`; otherwise (for in-bounds requests,
`0 ≤ offset` and `offset + len(buf) ≤ Size`) it copies exactly
`len(buf)` bytes starting at `offset` and returns that count, with no
clamp at `Cursor − offset`, so bytes at or beyond the cursor are copied
whenever `len(buf) > Cursor − offset`. -/
theorem c5_read_returns_buffer_length (s : DataSegment) (bufLen offset : Int)
    (h0 : 0 ≤ offset) (h1 : offset + bufLen ≤ s.size) :
    DataSegment.read s bufLen offset = some (if s.cursor ≤ offset then 0 else bufLen) := by
  unfold DataSegment.read
  by_cases hc : s.cursor ≤ offset
  · simp [hc]
  · simp [hc, h0, h1]

/-- Witness for the amended claim C5 at a concrete in-bounds input. -/
theorem c5_read_returns_buffer_length_witness :
    (0:Int) ≤ 0 ∧ (0:Int) + 64 ≤ 64 ∧ DataSegment.read ⟨0, 64, 32⟩ 64 0 = some 64 :=
  ⟨by decide, by decide, by
    rw [c5_read_returns_buffer_length ⟨0, 64, 32⟩ 64 0 (by decide) (by decide)]
    decide⟩

/-- Auxiliary: on a vacuum-free run of appends from a fresh log the
assigned record ids are exactly 0, 1, 2, …  This is the `MaxRecord + 1`
assignment law of `Index.Append` in isolation; it does not hold across
vacuums (see the claim C6 theorem below).  The size hypotheses mirror
the conditions under which the Go write loops terminate. -/
theorem appendOnly_ids_sequential (cfg : Config) (lens : List Int)
    (hd : 0 < cfg.dataSegmentSize) (hi : (41:Int) ≤ cfg.indexSegmentSize) :
    walRunIds cfg (lens.map WalOp.write) = (List.range lens.length).map Int.ofNat := by
  have hs : (idxNew cfg).current.isSome := rfl
  have hm : (idxNew cfg).maxRecord = -1 := rfl
  have h := walRunFrom_append_ids lens (idxNew cfg) hs
  rw [hm] at h
  show (walRunFrom (idxNew cfg) (lens.map WalOp.write)).2 = _
  rw [h]
  apply List.map_congr_left
  intro a _
  omega

/-- A concrete instance of `appendOnly_ids_sequential`. -/
theorem appendOnly_ids_sequential_example :
    (0:Int) < 64 ∧ (41:Int) ≤ 1024
    ∧ walRunIds ⟨64, 1024⟩ ([5, 6, 7].map WalOp.write) = [0, 1, 2] :=
  ⟨by decide, by decide, by
    rw [appendOnly_ids_sequential ⟨64, 1024⟩ [5, 6, 7] (by decide) (by decide)]
    decide⟩

set_option maxRecDepth 400000 in
/-- Claim C6: the claim says every successful append assigns the
previous maximum assigned RecordID plus one (0 for the first on a
fresh log), so ids strictly increase by one per successful append.
This holds on vacuum-free runs (`appendOnly_ids_sequential`), but
because `VacuumObjects` stores the current segment's `RecordsCount`
into `MaxRecord`, an append after a vacuum breaks it: with two records
per index segment, four appends (ids 0–3), `VacuumObjects(0, true)`
and one more append yield the assigned sequence [0,1,2,3,3] — the
fifth successful append assigns 3, not the previous maximum assigned
(3) plus one, and the sequence is not strictly increasing. -/
theorem c6_append_id_not_prev_max_plus_one :
    walRunIds ⟨64, 92⟩
      (List.replicate 4 (WalOp.write 8) ++ [WalOp.vacuum 0 true, WalOp.write 8])
      = [0, 1, 2, 3, 3] := by
  decide

set_option maxRecDepth 400000 in
/-- Claim C7: the spec says `ReadObject` fails with NotFound exactly
for ids above the tail, never allocated, or purged — never for a live
id.  After four appends (ids 0–3 in one index segment) and
`VacuumObjects(0, true)`, the live record 1 (assigned, not covered by
the vacuum prefix, its own physical slot unflagged) nevertheless gets
NotFound, because the slot decoded for id 1 is record 0's purged slot. -/
theorem c7_notFound_for_live_id :
    walRunIds ⟨64, 1024⟩ (List.replicate 4 (WalOp.write 8) ++ [WalOp.vacuum 0 true])
      = [0, 1, 2, 3]
    ∧ readObject
        (walRun ⟨64, 1024⟩ (List.replicate 4 (WalOp.write 8) ++ [WalOp.vacuum 0 true])) 1
        = ReadResult.notFound
    ∧ (idxMapGet
        (walRun ⟨64, 1024⟩ (List.replicate 4 (WalOp.write 8) ++ [WalOp.vacuum 0 true])) 0).map
        (fun s => s.slots.map (fun r => r.purged))
        = some [true, false, false, false] := by
  exact ⟨by decide, by decide, by decide⟩

set_option maxRecDepth 400000 in
/-- Claim C8: in the spec scenario (writes of 298, 25 and 25 bytes with
`DataSegmentSize = 128`), `VacuumRecords(0, true)` removes data
segments 0 and 1 and preserves 2 — which the code does — but the
subsequent `VacuumRecords(1, true)` is required to change nothing,
while the code's in-use scan (reading slots at the drifted offset
`id − LowerRecord`) finds no live record, unlinks the still-referenced
data segment 2 and rotates to a fresh data segment 3, contradicting the
repository's own `TestWALVacuumSegmented` assertion that `data0002`
still exists. -/
theorem c8_vacuum_unlinks_live_data_segment :
    (walRun ⟨128, 1024⟩ [WalOp.write 298, WalOp.write 25, WalOp.write 25]).dm.inMap
      = [0, 1, 2]
    ∧ (walRun ⟨128, 1024⟩
        [WalOp.write 298, WalOp.write 25, WalOp.write 25, WalOp.vacuum 0 true]).dm.inMap
      = [2]
    ∧ (walRun ⟨128, 1024⟩
        [WalOp.write 298, WalOp.write 25, WalOp.write 25, WalOp.vacuum 0 true,
         WalOp.vacuum 1 true]).dm.inMap
      = [3] := by
  exact ⟨by decide, by decide, by decide⟩

set_option maxRecDepth 400000 in
/-- Claim C9: `CountObjects` counts slots, not live records: after 1000
short appends (`DataSegmentSize = IndexSegmentSize = 4096`, 99 records
per index segment), `CountObjects(49, false)` returns
`UpperRecord(seg 0) − 49` plus the `RecordsCount` of segments 1–10,
which is 950, and the inclusive variant returns 951. -/
theorem c9_countObjects_after_1000_appends :
    countObjects (walRun ⟨4096, 4096⟩ (List.replicate 1000 (WalOp.write 8))) 49 false = 950
    ∧ countObjects (walRun ⟨4096, 4096⟩ (List.replicate 1000 (WalOp.write 8))) 49 true = 951 := by
  rw [c9run]
  exact ⟨by decide, by decide⟩

set_option maxRecDepth 400000 in
/-- Claim C10: on an empty log — freshly created (where `MaxRecord` is
−1) or one whose every record has been vacuumed — `CurrentRecordID`
returns `max(MaxRecord, 0) = 0`, the same value it returns after
exactly one successful append (which sets `MaxRecord = 0`); so
`CurrentRecordID` alone cannot distinguish an empty log from a log
holding only record 0. -/
theorem c10_currentRecordID_empty_vs_first (cfg : Config) (len : Int) :
    currentRecordID (idxNew cfg) = 0 ∧ (idxNew cfg).maxRecord = -1
    ∧ currentRecordID (idxAppend (idxNew cfg) len).1 = 0
    ∧ (idxAppend (idxNew cfg) len).1.maxRecord = 0
    ∧ (walRun ⟨64, 1024⟩ [WalOp.write 8, WalOp.vacuum 0 true]).maxRecord = -1
    ∧ currentRecordID (walRun ⟨64, 1024⟩ [WalOp.write 8, WalOp.vacuum 0 true]) = 0 := by
  obtain ⟨-, h2, -⟩ := idxAppend_spec (idxNew cfg) len rfl
  have hm : (idxNew cfg).maxRecord = -1 := rfl
  rw [hm] at h2
  refine ⟨rfl, rfl, ?_, ?_, by decide, by decide⟩
  · rw [currentRecordID, h2]
    rfl
  · rw [h2]
    decide

end Wal
